import Mathlib

/-!
Shallow embedding of the feature-aggregation core of the repository:
`rasa/nlu/featurizers/featurizer.py`, `rasa/nlu/training_data/message.py`,
and `rasa/nlu/featurizers/dense_featurizer/spacy_featurizer.py`.

Numeric tensors are modelled over `ℚ`; a numpy 2-D array and a scipy
sparse matrix are both modelled extensionally as their list of rows
(`List (List ℚ)`), with the sparsity class kept as a tag on the value
(`FeatVal`).  Python `ValueError`s become `Except` errors carrying the
data their messages carry.
-/

namespace Rasa

/-- Constant `TEXT` from `rasa.nlu.constants` (module outside `src/`). -/
def TEXT : String := "text"

/-- Constant `FEATURE_TYPE_SEQUENCE` from `rasa.nlu.constants` (module outside `src/`). -/
def FEATURE_TYPE_SEQUENCE : String := "sequence"

/-- Constant `FEATURE_TYPE_SENTENCE` from `rasa.nlu.constants` (module outside `src/`). -/
def FEATURE_TYPE_SENTENCE : String := "sentence"

/-- Constant `VALID_FEATURE_TYPES` from `rasa.nlu.constants` (module outside `src/`):
the two granularity tags accepted by `Features.validate_type`. -/
def VALID_FEATURE_TYPES : List String := [FEATURE_TYPE_SEQUENCE, FEATURE_TYPE_SENTENCE]

/-- Constant `MEAN_POOLING` from `rasa.utils.tensorflow.constants` (module outside
`src/`); value per the source comment in `spacy_featurizer.py`
("Available options: 'mean' and 'max'"). -/
def MEAN_POOLING : String := "mean"

/-- Constant `MAX_POOLING` from `rasa.utils.tensorflow.constants` (module outside `src/`). -/
def MAX_POOLING : String := "max"

/-- A 2-D numeric matrix, as its list of rows. -/
abbrev Mat := List (List ℚ)

/-- The `ValueError`s raised by the embedded code, carrying the data that the
corresponding Python error messages carry, plus `pyError` for failures of the
Python runtime itself (e.g. `len()` of an object that is not an array). -/
inductive PyErr
  | invalidFeatureType (type : String)
  | incompatibleSparsity
  | shapeMismatch (rows1 rows2 : ℕ)
  | invalidPoolingPolicy (provided : String)
  | pyError
deriving DecidableEq, Repr

deriving instance DecidableEq for Except

/-- A Python value stored in `Features.features`: a dense numpy `ndarray`, a
scipy sparse matrix (`spmatrix`), or any other Python object — the
`Features` constructor accepts anything and never inspects it. -/
inductive FeatVal
  | ndarray (mat : Mat)
  | spmatrix (mat : Mat)
  | pyobj (tag : String)
deriving DecidableEq, Repr

/-- The `Features` record of `rasa/nlu/featurizers/featurizer.py`:
tensor value, granularity type tag, message attribute and origin. -/
structure Features where
  features : FeatVal
  type : String
  message_attribute : String
  origin : String
deriving DecidableEq, Repr

/-- `Features.validate_type`: raises `ValueError` for a type tag outside
`VALID_FEATURE_TYPES`. -/
def Features.validate_type (type : String) : Except PyErr Unit :=
  if type ∈ VALID_FEATURE_TYPES then .ok () else .error (.invalidFeatureType type)

/-- `Features.__init__`: validates the type tag, then stores the four fields
unchanged; the tensor value itself is never inspected. -/
def Features.make (features : FeatVal) (type message_attribute origin : String) :
    Except PyErr Features :=
  match Features.validate_type type with
  | .error e => .error e
  | .ok _ => .ok ⟨features, type, message_attribute, origin⟩

/-- `Features.is_sparse`: `isinstance(self.features, scipy.sparse.spmatrix)`. -/
def Features.is_sparse (f : Features) : Bool :=
  match f.features with
  | .spmatrix _ => true
  | _ => false

/-- `Features.is_dense`: `not self.is_sparse()`. -/
def Features.is_dense (f : Features) : Bool := ! f.is_sparse

/-- `Features._combine_dense_features`: raises a `ValueError` carrying both row
counts when the row counts differ, otherwise `np.concatenate(..., axis=-1)`,
i.e. row-wise horizontal concatenation. -/
def Features.combine_dense_features (features additional_features : Mat) :
    Except PyErr Mat :=
  if features.length ≠ additional_features.length then
    .error (.shapeMismatch features.length additional_features.length)
  else
    .ok (List.zipWith (· ++ ·) features additional_features)

/-- `Features._combine_sparse_features`: raises a `ValueError` carrying both row
counts (`shape[0]` of each operand) when they differ, otherwise
`scipy.sparse.hstack`, i.e. horizontal concatenation. -/
def Features.combine_sparse_features (features additional_features : Mat) :
    Except PyErr Mat :=
  if features.length ≠ additional_features.length then
    .error (.shapeMismatch features.length additional_features.length)
  else
    .ok (List.zipWith (· ++ ·) features additional_features)

/-- `Features.combine_with_features`: `None` returns the own tensor; dense self
with an `ndarray` argument goes through `_combine_dense_features` (a non-array
dense `self.features` then fails inside numpy, modelled `pyError`); sparse self
with an `spmatrix` argument goes through `_combine_sparse_features`; every
other pairing raises `ValueError` ("Cannot concatenate sparse and dense
features."). -/
def Features.combine_with_features (self : Features) (additional_features : Option FeatVal) :
    Except PyErr FeatVal :=
  match additional_features, self.features with
  | none, _ => .ok self.features
  | some (.ndarray m2), .ndarray m1 =>
      (Features.combine_dense_features m1 m2).map FeatVal.ndarray
  | some (.ndarray _), .pyobj _ => .error .pyError
  | some (.spmatrix m2), .spmatrix m1 =>
      (Features.combine_sparse_features m1 m2).map FeatVal.spmatrix
  | _, _ => .error .incompatibleSparsity

/-- `message.py` folds feature groups through `Features.combine_features(combined, f)`;
the `Features` class defines no attribute of that name (Python raises
`AttributeError` there at runtime), and `combine_with_features` is the only
combination operation in the repository, so the call is modelled by that
evident intent: the record `f` combined with the already-combined tensor. -/
def Features.combine_features (combined : Option FeatVal) (f : Features) :
    Except PyErr FeatVal :=
  f.combine_with_features combined

/-- `message.py` compares `f.type` with `Features.SEQUENCE`; the `Features`
class defines no such attribute (an `AttributeError` at runtime); modelled as
the repository's sequence-granularity constant, the evident intent. -/
def Features.SEQUENCE : String := FEATURE_TYPE_SEQUENCE

/-- `message.py` compares `f.type` with `Features.SENTENCE`; the `Features`
class defines no such attribute (an `AttributeError` at runtime); modelled as
the repository's sentence-granularity constant, the evident intent. -/
def Features.SENTENCE : String := FEATURE_TYPE_SENTENCE

/-- Rows of a horizontal concatenation of two rectangular matrices have the
summed width. -/
theorem zipWith_append_width (m1 m2 : Mat) (w1 w2 : ℕ)
    (h1 : ∀ r ∈ m1, r.length = w1) (h2 : ∀ r ∈ m2, r.length = w2) :
    ∀ r ∈ List.zipWith (· ++ ·) m1 m2, r.length = w1 + w2 := by
  induction m1 generalizing m2 with
  | nil => simp
  | cons a t ih =>
      cases m2 with
      | nil => simp
      | cons b s =>
          intro r hr
          rcases List.mem_cons.mp hr with h | h
          · subst h
            rw [List.length_append, h1 a (List.mem_cons_self a t),
              h2 b (List.mem_cons_self b s)]
          · exact ih s (fun r hr => h1 r (List.mem_cons_of_mem a hr))
              (fun r hr => h2 r (List.mem_cons_of_mem b hr)) r h

/-- Horizontal concatenation of row lists is associative. -/
theorem zipWith_append_assoc (a b c : Mat) :
    List.zipWith (· ++ ·) (List.zipWith (· ++ ·) a b) c =
      List.zipWith (· ++ ·) a (List.zipWith (· ++ ·) b c) := by
  induction a generalizing b c with
  | nil => simp
  | cons x xs ih =>
      cases b with
      | nil => simp
      | cons y ys =>
          cases c with
          | nil => simp
          | cons z zs => simp [List.zipWith, ih, List.append_assoc]

/-- C4: combining two same-sparsity 2-D tensors with equal row counts returns
their horizontal concatenation along the feature axis (row count unchanged,
column count summed), for the dense and for the sparse combination alike; if
the row counts differ, both fail with the shape-mismatch error carrying both
row counts. -/
theorem combine_same_sparsity_concat (m1 m2 : Mat) (w1 w2 : ℕ)
    (h1 : ∀ r ∈ m1, r.length = w1) (h2 : ∀ r ∈ m2, r.length = w2) :
    (m1.length = m2.length →
      Features.combine_dense_features m1 m2 = .ok (List.zipWith (· ++ ·) m1 m2) ∧
      Features.combine_sparse_features m1 m2 = .ok (List.zipWith (· ++ ·) m1 m2) ∧
      (List.zipWith (· ++ ·) m1 m2).length = m1.length ∧
      ∀ r ∈ List.zipWith (· ++ ·) m1 m2, r.length = w1 + w2) ∧
    (m1.length ≠ m2.length →
      Features.combine_dense_features m1 m2 =
        .error (.shapeMismatch m1.length m2.length) ∧
      Features.combine_sparse_features m1 m2 =
        .error (.shapeMismatch m1.length m2.length)) := by
  constructor
  · intro hlen
    refine ⟨?_, ?_, ?_, zipWith_append_width m1 m2 w1 w2 h1 h2⟩
    · simp [Features.combine_dense_features, hlen]
    · simp [Features.combine_sparse_features, hlen]
    · rw [List.length_zipWith, hlen, Nat.min_self]
  · intro hlen
    constructor
    · simp [Features.combine_dense_features, hlen]
    · simp [Features.combine_sparse_features, hlen]

/-- Witness for C4 at concrete matrices: equal row counts concatenate
horizontally, and divergent row counts produce the shape-mismatch error
carrying both counts. -/
theorem combine_same_sparsity_concat_witness :
    Features.combine_dense_features [[(1 : ℚ)], [2]] [[3, 4], [5, 6]] =
      .ok [[1, 3, 4], [2, 5, 6]] ∧
    Features.combine_dense_features [[(1 : ℚ)], [2]] [[3, 4]] =
      .error (.shapeMismatch 2 1) := by
  constructor
  · exact ((combine_same_sparsity_concat [[(1 : ℚ)], [2]] [[3, 4], [5, 6]] 1 2
      (by decide) (by decide)).1 (by decide)).1
  · exact ((combine_same_sparsity_concat [[(1 : ℚ)], [2]] [[3, 4]] 1 2
      (by decide) (by decide)).2 (by decide)).1

/-- C6: combining tensors of differing sparsity class, in either role, always
fails with the incompatible-sparsity error; no coercion is performed. -/
theorem combine_incompatible_sparsity (f : Features) (mat : Mat) :
    (f.is_dense = true →
      f.combine_with_features (some (.spmatrix mat)) = .error .incompatibleSparsity) ∧
    (f.is_sparse = true →
      f.combine_with_features (some (.ndarray mat)) = .error .incompatibleSparsity) := by
  constructor
  · intro hd
    cases hf : f.features with
    | ndarray m => simp [Features.combine_with_features, hf]
    | spmatrix m =>
        exfalso
        simp [Features.is_dense, Features.is_sparse, hf] at hd
    | pyobj t => simp [Features.combine_with_features, hf]
  · intro hs
    cases hf : f.features with
    | ndarray m =>
        exfalso
        simp [Features.is_sparse, hf] at hs
    | spmatrix m => simp [Features.combine_with_features, hf]
    | pyobj t =>
        exfalso
        simp [Features.is_sparse, hf] at hs

/-- Witness for C6: a concrete dense record combined with a sparse matrix, and
a concrete sparse record combined with a dense matrix, both fail with the
incompatible-sparsity error. -/
theorem combine_incompatible_sparsity_witness :
    (Features.mk (.ndarray [[1]]) "sequence" "text" "a").combine_with_features
      (some (.spmatrix [[2]])) = .error .incompatibleSparsity ∧
    (Features.mk (.spmatrix [[1]]) "sequence" "text" "a").combine_with_features
      (some (.ndarray [[2]])) = .error .incompatibleSparsity := by
  constructor
  · exact (combine_incompatible_sparsity
      (Features.mk (.ndarray [[1]]) "sequence" "text" "a") [[2]]).1 (by decide)
  · exact (combine_incompatible_sparsity
      (Features.mk (.spmatrix [[1]]) "sequence" "text" "a") [[2]]).2 (by decide)

/-- C7: dense combination of three tensors with pairwise equal row counts
yields the same concatenation under either grouping; if any row counts differ,
both groupings fail with a shape-mismatch error. -/
theorem dense_combine_assoc (a b c : Mat) :
    (a.length = b.length → b.length = c.length →
      (Features.combine_dense_features a b).bind
          (fun ab => Features.combine_dense_features ab c) =
        .ok (List.zipWith (· ++ ·) a (List.zipWith (· ++ ·) b c)) ∧
      (Features.combine_dense_features b c).bind
          (fun bc => Features.combine_dense_features a bc) =
        .ok (List.zipWith (· ++ ·) a (List.zipWith (· ++ ·) b c))) ∧
    (¬ (a.length = b.length ∧ b.length = c.length) →
      (∃ r1 r2, (Features.combine_dense_features a b).bind
          (fun ab => Features.combine_dense_features ab c) =
        .error (.shapeMismatch r1 r2)) ∧
      (∃ r1 r2, (Features.combine_dense_features b c).bind
          (fun bc => Features.combine_dense_features a bc) =
        .error (.shapeMismatch r1 r2))) := by
  constructor
  · intro hab hbc
    have h1 : Features.combine_dense_features a b = .ok (List.zipWith (· ++ ·) a b) := by
      simp only [Features.combine_dense_features]
      rw [if_neg (by omega)]
    have h2 : Features.combine_dense_features b c = .ok (List.zipWith (· ++ ·) b c) := by
      simp only [Features.combine_dense_features]
      rw [if_neg (by omega)]
    have h3 : Features.combine_dense_features (List.zipWith (· ++ ·) a b) c =
        .ok (List.zipWith (· ++ ·) (List.zipWith (· ++ ·) a b) c) := by
      simp only [Features.combine_dense_features, List.length_zipWith]
      rw [if_neg (by omega)]
    have h4 : Features.combine_dense_features a (List.zipWith (· ++ ·) b c) =
        .ok (List.zipWith (· ++ ·) a (List.zipWith (· ++ ·) b c)) := by
      simp only [Features.combine_dense_features, List.length_zipWith]
      rw [if_neg (by omega)]
    constructor
    · rw [h1]
      show Features.combine_dense_features (List.zipWith (· ++ ·) a b) c = _
      rw [h3, zipWith_append_assoc]
    · rw [h2]
      show Features.combine_dense_features a (List.zipWith (· ++ ·) b c) = _
      exact h4
  · intro hmix
    by_cases hab : a.length = b.length
    · have hbc : b.length ≠ c.length := fun h => hmix ⟨hab, h⟩
      have h1 : Features.combine_dense_features a b = .ok (List.zipWith (· ++ ·) a b) := by
        simp only [Features.combine_dense_features]
        rw [if_neg (by omega)]
      constructor
      · refine ⟨(List.zipWith (· ++ ·) a b).length, c.length, ?_⟩
        rw [h1]
        show Features.combine_dense_features (List.zipWith (· ++ ·) a b) c = _
        simp only [Features.combine_dense_features, List.length_zipWith]
        rw [if_pos (by omega)]
      · refine ⟨b.length, c.length, ?_⟩
        have h2 : Features.combine_dense_features b c =
            .error (.shapeMismatch b.length c.length) := by
          simp only [Features.combine_dense_features]
          rw [if_pos (by omega)]
        rw [h2]
        rfl
    · have h1 : Features.combine_dense_features a b =
          .error (.shapeMismatch a.length b.length) := by
        simp only [Features.combine_dense_features]
        rw [if_pos (by omega)]
      constructor
      · refine ⟨a.length, b.length, ?_⟩
        rw [h1]
        rfl
      · by_cases hbc : b.length = c.length
        · have h2 : Features.combine_dense_features b c = .ok (List.zipWith (· ++ ·) b c) := by
            simp only [Features.combine_dense_features]
            rw [if_neg (by omega)]
          refine ⟨a.length, (List.zipWith (· ++ ·) b c).length, ?_⟩
          rw [h2]
          show Features.combine_dense_features a (List.zipWith (· ++ ·) b c) = _
          simp only [Features.combine_dense_features, List.length_zipWith]
          rw [if_pos (by omega)]
        · refine ⟨b.length, c.length, ?_⟩
          have h2 : Features.combine_dense_features b c =
              .error (.shapeMismatch b.length c.length) := by
            simp only [Features.combine_dense_features]
            rw [if_pos (by omega)]
          rw [h2]
          rfl

/-- Witness for C7: three concrete one-row tensors concatenate identically
under both groupings. -/
theorem dense_combine_assoc_witness :
    (Features.combine_dense_features [[(1 : ℚ)]] [[2]]).bind
        (fun ab => Features.combine_dense_features ab [[3]]) =
      .ok [[1, 2, 3]] ∧
    (Features.combine_dense_features [[(2 : ℚ)]] [[3]]).bind
        (fun bc => Features.combine_dense_features [[(1 : ℚ)]] bc) =
      .ok [[1, 2, 3]] := by
  exact ⟨((dense_combine_assoc [[(1 : ℚ)]] [[2]] [[3]]).1 rfl rfl).1,
    ((dense_combine_assoc [[(1 : ℚ)]] [[2]] [[3]]).1 rfl rfl).2⟩

/-- Column-wise reduction of a non-empty list of rows by a binary operation;
this is how `np.mean(m, axis=0)` and `np.max(m, axis=0)` traverse the rows. -/
def colReduce (f : ℚ → ℚ → ℚ) : Mat → List ℚ
  | [] => []
  | [r] => r
  | r :: s :: rest => List.zipWith f r (colReduce f (s :: rest))

/-- `np.mean(m, axis=0, keepdims=True)`: column-wise sums divided by the row
count, kept as a single-row matrix. -/
def npMean (m : Mat) : Mat :=
  [(colReduce (· + ·) m).map (fun x => x / (m.length : ℚ))]

/-- `np.max(m, axis=0, keepdims=True)`: column-wise maxima, kept as a
single-row matrix. -/
def npMax (m : Mat) : Mat :=
  [colReduce max m]

/-- `features.shape[-1]` for an array built as a list of rows: the row width,
and `0` for `np.array([])`, whose shape is `(0,)`. -/
def matWidth : Mat → ℕ
  | [] => 0
  | r :: _ => r.length

/-- `f.any()` for one row `f`: some entry is non-zero. -/
def rowAny (r : List ℚ) : Bool := r.any (fun x => decide (x ≠ 0))

/-- `DenseFeaturizer._calculate_cls_vector`: keeps only the rows with some
non-zero entry; if none remain, returns a single all-zero row of the input
matrix's width before checking the policy; otherwise pools by the configured
operation, raising the invalid-pooling-policy error (naming the offending
value) for any operation other than mean and max. -/
def DenseFeaturizer.calculate_cls_vector (features : Mat) (pooling_operation : String) :
    Except PyErr Mat :=
  let non_zero_features := features.filter rowAny
  if non_zero_features.isEmpty then
    .ok [List.replicate (matWidth features) 0]
  else if pooling_operation = MEAN_POOLING then
    .ok (npMean non_zero_features)
  else if pooling_operation = MAX_POOLING then
    .ok (npMax non_zero_features)
  else
    .error (.invalidPoolingPolicy pooling_operation)

/-- Stated from the claim's words, for comparison with `npMean`: the single
row whose j-th entry is the column-wise arithmetic mean of the rows. -/
def specMeanRow (m : Mat) (w : ℕ) : List ℚ :=
  (List.range w).map (fun j => (m.map (fun r => r.getD j 0)).sum / (m.length : ℚ))

/-- Maximum of a non-empty list of rationals (0 for the empty list). -/
def listMax : List ℚ → ℚ
  | [] => 0
  | [a] => a
  | a :: b :: t => max a (listMax (b :: t))

/-- Stated from the claim's words, for comparison with `npMax`: the single row
whose j-th entry is the column-wise maximum of the rows. -/
def specMaxRow (m : Mat) (w : ℕ) : List ℚ :=
  (List.range w).map (fun j => listMax (m.map (fun r => r.getD j 0)))

/-- The column-wise sum reduction computes, in each column, the sum of that
column's entries. -/
theorem colReduce_add_eq (m : Mat) (w : ℕ) (hw : ∀ r ∈ m, r.length = w) (hm : m ≠ []) :
    colReduce (· + ·) m = (List.range w).map (fun j => (m.map (fun r => r.getD j 0)).sum) := by
  induction m with
  | nil => exact absurd rfl hm
  | cons r t ih =>
      have hr : r.length = w := hw r (List.mem_cons_self r t)
      cases t with
      | nil =>
          simp only [colReduce]
          apply List.ext_getElem
          · simp [hr]
          · intro i h1 h2
            simp only [List.getElem_map, List.getElem_range, List.map_cons, List.map_nil,
              List.sum_cons, List.sum_nil, add_zero]
            rw [List.getD_eq_getElem r 0 h1]
      | cons s u =>
          have ih2 := ih (fun x hx => hw x (List.mem_cons_of_mem r hx)) (by simp)
          simp only [colReduce] at ih2 ⊢
          rw [ih2]
          apply List.ext_getElem
          · simp [List.length_zipWith, hr]
          · intro i h1 h2
            rw [List.getElem_zipWith]
            simp only [List.getElem_map, List.getElem_range, List.map_cons, List.sum_cons]
            have hiw : i < w := by
              simpa using h2
            have hir : i < r.length := by omega
            rw [List.getD_eq_getElem r 0 hir]

/-- The column-wise max reduction computes, in each column, the maximum of
that column's entries. -/
theorem colReduce_max_eq (m : Mat) (w : ℕ) (hw : ∀ r ∈ m, r.length = w) (hm : m ≠ []) :
    colReduce max m = (List.range w).map (fun j => listMax (m.map (fun r => r.getD j 0))) := by
  induction m with
  | nil => exact absurd rfl hm
  | cons r t ih =>
      have hr : r.length = w := hw r (List.mem_cons_self r t)
      cases t with
      | nil =>
          simp only [colReduce]
          apply List.ext_getElem
          · simp [hr]
          · intro i h1 h2
            simp only [List.getElem_map, List.getElem_range, List.map_cons, List.map_nil,
              listMax]
            rw [List.getD_eq_getElem r 0 h1]
      | cons s u =>
          have ih2 := ih (fun x hx => hw x (List.mem_cons_of_mem r hx)) (by simp)
          simp only [colReduce] at ih2 ⊢
          rw [ih2]
          apply List.ext_getElem
          · simp [List.length_zipWith, hr]
          · intro i h1 h2
            rw [List.getElem_zipWith]
            simp only [List.getElem_map, List.getElem_range, List.map_cons, listMax]
            have hiw : i < w := by
              simpa using h2
            have hir : i < r.length := by omega
            rw [List.getD_eq_getElem r 0 hir]

/-- C5: pooling first discards every all-zero row; with non-zero rows left,
MEAN returns the single-row column-wise arithmetic mean and MAX the
single-row column-wise maximum of those rows; with none left it returns a
single all-zero row of the input matrix's column width for every policy,
raising no error. -/
theorem pooling_mean_max (m nz : Mat) (w : ℕ)
    (hw : ∀ r ∈ m, r.length = w)
    (hnz : nz = m.filter rowAny) :
    (nz ≠ [] →
      DenseFeaturizer.calculate_cls_vector m MEAN_POOLING = .ok [specMeanRow nz w] ∧
      DenseFeaturizer.calculate_cls_vector m MAX_POOLING = .ok [specMaxRow nz w]) ∧
    (nz = [] → ∀ p, DenseFeaturizer.calculate_cls_vector m p =
      .ok [List.replicate (matWidth m) 0]) := by
  subst hnz
  constructor
  · intro hne
    have hwnz : ∀ r ∈ m.filter rowAny, r.length = w :=
      fun r hr => hw r (List.mem_filter.mp hr).1
    have hemp : ¬ ((m.filter rowAny).isEmpty = true) := by
      simpa [List.isEmpty_iff] using hne
    constructor
    · simp only [DenseFeaturizer.calculate_cls_vector]
      rw [if_neg hemp, if_pos trivial]
      simp only [npMean, specMeanRow]
      rw [colReduce_add_eq (m.filter rowAny) w hwnz hne, List.map_map]
      rfl
    · simp only [DenseFeaturizer.calculate_cls_vector]
      rw [if_neg hemp, if_neg (by decide), if_pos trivial]
      simp only [npMax, specMaxRow]
      rw [colReduce_max_eq (m.filter rowAny) w hwnz hne]
  · intro hempty p
    simp only [DenseFeaturizer.calculate_cls_vector]
    rw [if_pos (by simpa [List.isEmpty_iff] using hempty)]

/-- Witness for C5 at the claim's concrete inputs: rows [[1,2],[0,0],[3,4]]
give [[2,3]] under MEAN and [[3,4]] under MAX, and an all-zero matrix of
width 5 gives a single zero row of width 5. -/
theorem pooling_mean_max_witness :
    DenseFeaturizer.calculate_cls_vector [[(1 : ℚ), 2], [0, 0], [3, 4]] MEAN_POOLING =
      .ok [[2, 3]] ∧
    DenseFeaturizer.calculate_cls_vector [[(1 : ℚ), 2], [0, 0], [3, 4]] MAX_POOLING =
      .ok [[3, 4]] ∧
    DenseFeaturizer.calculate_cls_vector [[(0 : ℚ), 0, 0, 0, 0]] MEAN_POOLING =
      .ok [[0, 0, 0, 0, 0]] := by
  have h := pooling_mean_max [[(1 : ℚ), 2], [0, 0], [3, 4]] [[(1 : ℚ), 2], [3, 4]] 2
    (by norm_num) (by norm_num [rowAny])
  have h0 := pooling_mean_max [[(0 : ℚ), 0, 0, 0, 0]] [] 5
    (by norm_num) (by norm_num [rowAny])
  refine ⟨?_, ?_, ?_⟩
  · rw [(h.1 (List.cons_ne_nil _ _)).1]
    norm_num [specMeanRow, List.range_succ, Except.ok.injEq]
  · rw [(h.1 (List.cons_ne_nil _ _)).2]
    norm_num [specMaxRow, listMax, List.range_succ, Except.ok.injEq]
  · rw [h0.2 rfl MEAN_POOLING]
    rfl

/-- One spacy token of a document representation, as the adapter consumes it:
its surface text and its word vector. -/
structure SpacyToken where
  text : String
  vector : List ℚ
deriving DecidableEq, Repr

/-- A Python value stored in the `data` mapping of a `Message`: the explicit
`None`, a string, a pre-computed spacy document (list of tokens), or any
other annotation object (opaque). -/
inductive DataVal
  | pyNone
  | str (s : String)
  | doc (tokens : List SpacyToken)
  | obj (tag : String)
deriving DecidableEq, Repr

/-- The `Message` of `rasa/nlu/training_data/message.py`: raw text, the
`data` mapping (a Python dict, modelled as an insertion-ordered association
list), the `output_properties` key set, and the ordered feature store. -/
structure Message where
  text : String
  data : List (String × DataVal)
  output_properties : List String
  features : List Features
deriving DecidableEq, Repr

/-- `Message.add_features`: appends one record to the feature store. -/
def Message.add_features (m : Message) (f : Features) : Message :=
  ⟨m.text, m.data, m.output_properties, m.features ++ [f]⟩

/-- `Message.get`: the raw text for the `TEXT` key, otherwise
`self.data.get(prop)` with Python's `None` as the default. -/
def Message.get (m : Message) (prop : String) : DataVal :=
  if prop = TEXT then .str m.text
  else ((m.data.find? (fun kv => kv.1 = prop)).map Prod.snd).getD .pyNone

/-- `dict(d, text=...)` for a Python dict as an insertion-ordered association
list: an existing key is updated in place, a new key is appended. -/
def dictInsert (k : String) (v : DataVal) : List (String × DataVal) → List (String × DataVal)
  | [] => [(k, v)]
  | kv :: rest => if kv.1 = k then (k, v) :: rest else kv :: dictInsert k v rest

/-- `Message.as_dict`: optionally restricts `data` to the keys in
`output_properties`, drops entries whose value is `None`, and always places
the raw text under the `text` key. The feature store is not consulted. -/
def Message.as_dict (m : Message) (only_output_properties : Bool) :
    List (String × DataVal) :=
  let d := if only_output_properties then
      m.data.filter (fun kv => decide (kv.1 ∈ m.output_properties))
    else m.data
  let d := d.filter (fun kv => decide (kv.2 ≠ DataVal.pyNone))
  dictInsert TEXT (.str m.text) d

/-- The fold `combined = Features.combine_features(combined, f)` that
`Message.get_sparse_features` / `get_dense_features` run over one
granularity group, starting from `None`. -/
def Message.foldCombine (fs : List Features) : Except PyErr (Option FeatVal) :=
  fs.foldlM (fun combined f => (Features.combine_features combined f).map some) none

/-- `Message.get_sparse_features`: records matching the attribute and sparse
sparsity; `(None, None)` when none match; the groups are then filtered —
note that the SEQUENCE group's condition tests `not sentence_featurizers`,
exactly as the source does — and each group is folded through the combine
operation in insertion order. -/
def Message.get_sparse_features (m : Message) (attr : String)
    (sequence_featurizers sentence_featurizers : List String) :
    Except PyErr (Option FeatVal × Option FeatVal) :=
  let features := m.features.filter
    (fun f => decide (f.message_attribute = attr) && f.is_sparse)
  if features.isEmpty then .ok (none, none)
  else
    let sequence_features := features.filter
      (fun f => decide (f.type = Features.SEQUENCE) &&
        (decide (f.origin ∈ sequence_featurizers) || sentence_featurizers.isEmpty))
    let sentence_features := features.filter
      (fun f => decide (f.type = Features.SENTENCE) &&
        (decide (f.origin ∈ sentence_featurizers) || sentence_featurizers.isEmpty))
    if sequence_features.isEmpty && sentence_features.isEmpty then .ok (none, none)
    else do
      let combined_sequence_features ← Message.foldCombine sequence_features
      let combined_sentence_features ← Message.foldCombine sentence_features
      return (combined_sequence_features, combined_sentence_features)

/-- `Message.get_dense_features`: same as the sparse retrieval with the dense
sparsity filter, including the SEQUENCE group's `not sentence_featurizers`
emptiness test, exactly as the source does. -/
def Message.get_dense_features (m : Message) (attr : String)
    (sequence_featurizers sentence_featurizers : List String) :
    Except PyErr (Option FeatVal × Option FeatVal) :=
  let features := m.features.filter
    (fun f => decide (f.message_attribute = attr) && f.is_dense)
  if features.isEmpty then .ok (none, none)
  else
    let sequence_features := features.filter
      (fun f => decide (f.type = Features.SEQUENCE) &&
        (decide (f.origin ∈ sequence_featurizers) || sentence_featurizers.isEmpty))
    let sentence_features := features.filter
      (fun f => decide (f.type = Features.SENTENCE) &&
        (decide (f.origin ∈ sentence_featurizers) || sentence_featurizers.isEmpty))
    if sequence_features.isEmpty && sentence_features.isEmpty then .ok (none, none)
    else do
      let combined_sequence_features ← Message.foldCombine sequence_features
      let combined_sentence_features ← Message.foldCombine sentence_features
      return (combined_sequence_features, combined_sentence_features)

/-- `SPACY_DOCS[attribute]` from `rasa.nlu.constants` (module outside `src/`):
the `data` key under which the pre-computed spacy document for an attribute
is stored. -/
def SPACY_DOCS (attr : String) : String := attr ++ "_spacy_doc"

/-- The component configuration a `SpacyFeaturizer` is constructed with,
after `Component.__init__` (outside `src/`) has merged in the defaults
(`POOLING: "mean"`, `ALIAS: "spacy_featurizer"`): the pooling operation under
the `POOLING` key and the origin identifier under the `ALIAS` key. -/
structure SpacyConfig where
  pooling : String
  featurizer_alias : String
deriving DecidableEq, Repr

/-- The constructed `SpacyFeaturizer` adapter: `self.pooling_operation` and
the `ALIAS` entry of its component config. -/
structure SpacyFeaturizer where
  pooling_operation : String
  featurizer_alias : String
deriving DecidableEq, Repr

/-- `SpacyFeaturizer.__init__`: stores the configured pooling operation and
keeps the config; it performs no validation of any kind, so construction
always succeeds. -/
def SpacyFeaturizer.init (component_config : SpacyConfig) : Except PyErr SpacyFeaturizer :=
  .ok ⟨component_config.pooling, component_config.featurizer_alias⟩

/-- `SpacyFeaturizer._features_for_doc`: one row per token for which
`t.text and t.text.strip()` is truthy, i.e. the surface text is non-empty
and its `strip()` is non-empty (some character is not whitespace); blank
tokens contribute no row at all. -/
def SpacyFeaturizer.features_for_doc (doc : List SpacyToken) : Mat :=
  (doc.filter (fun t => (!t.text.data.isEmpty) &&
    t.text.data.any (fun c => !c.isWhitespace))).map SpacyToken.vector

/-- `SpacyFeaturizer._set_spacy_features`: no work when the spacy doc for the
attribute is absent; otherwise builds the per-token matrix, pools it, wraps
both as `Features` (sequence first, then sentence), tagged with the attribute
and the adapter's alias, and appends them to the message. A non-doc, non-None
value under the spacy-doc key would fail inside the Python runtime when
iterated, modelled `pyError`. -/
def SpacyFeaturizer.set_spacy_features (self : SpacyFeaturizer) (message : Message)
    (attr : String) : Except PyErr Message :=
  match message.get (SPACY_DOCS attr) with
  | .pyNone => .ok message
  | .doc tokens => do
      let features := SpacyFeaturizer.features_for_doc tokens
      let cls_token_vec ← DenseFeaturizer.calculate_cls_vector features self.pooling_operation
      let final_sequence_features ← Features.make (.ndarray features)
        FEATURE_TYPE_SEQUENCE attr self.featurizer_alias
      let message1 := message.add_features final_sequence_features
      let final_sentence_features ← Features.make (.ndarray cls_token_vec)
        FEATURE_TYPE_SENTENCE attr self.featurizer_alias
      return message1.add_features final_sentence_features
  | _ => .error .pyError

/-- A valid pooling operation never produces an error from
`_calculate_cls_vector`. -/
theorem cls_vector_ok_of_valid (m : Mat) (p : String)
    (hp : p = MEAN_POOLING ∨ p = MAX_POOLING) :
    ∃ r, DenseFeaturizer.calculate_cls_vector m p = .ok r := by
  simp only [DenseFeaturizer.calculate_cls_vector]
  by_cases he : (m.filter rowAny).isEmpty
  · rw [if_pos he]
    exact ⟨_, rfl⟩
  · rw [if_neg he]
    rcases hp with h | h
    · rw [if_pos h]
      exact ⟨_, rfl⟩
    · subst h
      rw [if_neg (by decide), if_pos rfl]
      exact ⟨_, rfl⟩

/-- An invalid pooling operation makes `_calculate_cls_vector` raise the
invalid-pooling-policy error as soon as a non-zero row exists. -/
theorem cls_vector_error_of_invalid (m : Mat) (p : String)
    (h1 : p ≠ MEAN_POOLING) (h2 : p ≠ MAX_POOLING) (hne : m.filter rowAny ≠ []) :
    DenseFeaturizer.calculate_cls_vector m p = .error (.invalidPoolingPolicy p) := by
  simp only [DenseFeaturizer.calculate_cls_vector]
  rw [if_neg (by simpa [List.isEmpty_iff] using hne), if_neg h1, if_neg h2]

/-- Reduction of the monadic bind on a success value. -/
theorem bind_ok_eq {α β : Type} (x : α) (f : α → Except PyErr β) :
    (Except.ok x : Except PyErr α) >>= f = f x := rfl

/-- Constructing a `Features` record with the sequence type tag succeeds. -/
theorem make_sequence_ok (v : FeatVal) (a o : String) :
    Features.make v FEATURE_TYPE_SEQUENCE a o = .ok ⟨v, FEATURE_TYPE_SEQUENCE, a, o⟩ := rfl

/-- Constructing a `Features` record with the sentence type tag succeeds. -/
theorem make_sentence_ok (v : FeatVal) (a o : String) :
    Features.make v FEATURE_TYPE_SENTENCE a o = .ok ⟨v, FEATURE_TYPE_SENTENCE, a, o⟩ := rfl

/-- C1 (evaluation of the embedded retrieval at the failing input): a stored
sparse SEQUENCE record from origin "a" is dropped although the sequence
allow-list is empty (the code tests the sentence allow-list's emptiness
instead), and is kept although the sequence allow-list is the non-empty
["b"] that does not contain "a" (because the sentence allow-list is empty),
contradicting the claimed origin-filter policy in both directions. -/
theorem origin_filter_tests_sentence_list_for_sequence_group :
    Message.get_sparse_features
        ⟨"hi", [], [], [⟨.spmatrix [[1, 0]], FEATURE_TYPE_SEQUENCE, "text", "a"⟩]⟩
        "text" [] ["b"] = .ok (none, none) ∧
    Message.get_sparse_features
        ⟨"hi", [], [], [⟨.spmatrix [[1, 0]], FEATURE_TYPE_SEQUENCE, "text", "a"⟩]⟩
        "text" ["b"] [] = .ok (some (.spmatrix [[1, 0]]), none) := by
  constructor
  · decide
  · decide

/-- C3 (evaluation of the embedded retrieval, with the nonexistent
`Features.combine_features` modelled as the evidently intended
`combine_with_features`): with no matching record the retrieval returns
(None, None); with two matching sparse SEQUENCE records the group is folded
through the combine operation in insertion order and the sentence half is
None; a dense request over the same store matches nothing. -/
theorem retrieval_fold_and_no_match_eval :
    Message.get_sparse_features
        ⟨"hi", [], [], [⟨.spmatrix [[1]], FEATURE_TYPE_SEQUENCE, "text", "a"⟩,
          ⟨.spmatrix [[2]], FEATURE_TYPE_SEQUENCE, "text", "b"⟩]⟩
        "other" [] [] = .ok (none, none) ∧
    Message.get_sparse_features
        ⟨"hi", [], [], [⟨.spmatrix [[1]], FEATURE_TYPE_SEQUENCE, "text", "a"⟩,
          ⟨.spmatrix [[2]], FEATURE_TYPE_SEQUENCE, "text", "b"⟩]⟩
        "text" [] [] = .ok (some (.spmatrix [[2, 1]]), none) ∧
    Message.get_dense_features
        ⟨"hi", [], [], [⟨.spmatrix [[1]], FEATURE_TYPE_SEQUENCE, "text", "a"⟩,
          ⟨.spmatrix [[2]], FEATURE_TYPE_SEQUENCE, "text", "b"⟩]⟩
        "text" [] [] = .ok (none, none) := by
  refine ⟨?_, ?_, ?_⟩
  · decide
  · decide
  · decide

/-- C2 counterexample: the adapter is constructed successfully with the
pooling value "bogus" (no validation at construction time), and that
successfully constructed adapter then raises the invalid-pooling-policy
error while processing a message that carries a spacy doc. -/
theorem pooling_policy_not_validated_at_init :
    SpacyFeaturizer.init ⟨"bogus", "spacy_featurizer"⟩ =
      .ok ⟨"bogus", "spacy_featurizer"⟩ ∧
    SpacyFeaturizer.set_spacy_features ⟨"bogus", "spacy_featurizer"⟩
        ⟨"hi", [("text_spacy_doc", .doc [⟨"hi", [1, 2]⟩])], [], []⟩ "text" =
      .error (.invalidPoolingPolicy "bogus") := by
  constructor
  · rfl
  · decide

/-- C2 amended: adapter construction succeeds for every pooling configuration
value without validating it; an adapter whose policy is mean or max never
raises the invalid-pooling-policy error while processing; an adapter with any
other policy raises it at process time whenever the doc yields a non-zero
row. -/
theorem pooling_policy_checked_at_process_time (cfg : SpacyConfig) :
    SpacyFeaturizer.init cfg = .ok ⟨cfg.pooling, cfg.featurizer_alias⟩ ∧
    (∀ (msg : Message) (a : String),
      cfg.pooling = MEAN_POOLING ∨ cfg.pooling = MAX_POOLING →
      ∀ s, SpacyFeaturizer.set_spacy_features ⟨cfg.pooling, cfg.featurizer_alias⟩ msg a ≠
        .error (.invalidPoolingPolicy s)) ∧
    (∀ (msg : Message) (a : String) (tokens : List SpacyToken),
      cfg.pooling ≠ MEAN_POOLING → cfg.pooling ≠ MAX_POOLING →
      msg.get (SPACY_DOCS a) = .doc tokens →
      (SpacyFeaturizer.features_for_doc tokens).filter rowAny ≠ [] →
      SpacyFeaturizer.set_spacy_features ⟨cfg.pooling, cfg.featurizer_alias⟩ msg a =
        .error (.invalidPoolingPolicy cfg.pooling)) := by
  refine ⟨rfl, ?_, ?_⟩
  · intro msg a hp s
    simp only [SpacyFeaturizer.set_spacy_features]
    cases hg : msg.get (SPACY_DOCS a) with
    | pyNone => simp
    | str v => simp
    | obj v => simp
    | doc tokens =>
        obtain ⟨r, hr⟩ := cls_vector_ok_of_valid
          (SpacyFeaturizer.features_for_doc tokens) cfg.pooling hp
        simp [hr, make_sequence_ok, make_sentence_ok, bind_ok_eq]
  · intro msg a tokens h1 h2 hdoc hne
    simp only [SpacyFeaturizer.set_spacy_features, hdoc]
    rw [cls_vector_error_of_invalid (SpacyFeaturizer.features_for_doc tokens)
      cfg.pooling h1 h2 hne]
    rfl

/-- Witness for the amended C2 at concrete inputs: a mean-pooling adapter is
constructed and never raises the invalid-pooling-policy error on a concrete
message, and a "bogus"-pooling adapter raises it on the same message. -/
theorem pooling_policy_checked_at_process_time_witness :
    SpacyFeaturizer.init ⟨"mean", "spacy_featurizer"⟩ =
      .ok ⟨"mean", "spacy_featurizer"⟩ ∧
    SpacyFeaturizer.set_spacy_features ⟨"mean", "spacy_featurizer"⟩
        ⟨"hi", [("text_spacy_doc", .doc [⟨"hi", [1, 2]⟩])], [], []⟩ "text" ≠
      .error (.invalidPoolingPolicy "mean") ∧
    SpacyFeaturizer.set_spacy_features ⟨"bogus", "spacy_featurizer"⟩
        ⟨"hi", [("text_spacy_doc", .doc [⟨"hi", [1, 2]⟩])], [], []⟩ "text" =
      .error (.invalidPoolingPolicy "bogus") := by
  refine ⟨(pooling_policy_checked_at_process_time ⟨"mean", "spacy_featurizer"⟩).1,
    (pooling_policy_checked_at_process_time ⟨"mean", "spacy_featurizer"⟩).2.1
      ⟨"hi", [("text_spacy_doc", .doc [⟨"hi", [1, 2]⟩])], [], []⟩ "text"
      (Or.inl rfl) "mean",
    (pooling_policy_checked_at_process_time ⟨"bogus", "spacy_featurizer"⟩).2.2
      ⟨"hi", [("text_spacy_doc", .doc [⟨"hi", [1, 2]⟩])], [], []⟩ "text"
      [⟨"hi", [1, 2]⟩] (by decide) (by decide) (by decide) (by decide)⟩

/-- C8: processing a message with no spacy doc for the attribute appends
nothing and raises no error; processing one that has a doc appends exactly
two records — first a SEQUENCE record with one vector row per non-blank
token, then a SENTENCE record holding the pooled vector, both tagged with
the attribute and the adapter's alias — leaving text, data and the
previously stored records unchanged. -/
theorem spacy_process_appends_two (self : SpacyFeaturizer) (msg : Message) (a : String)
    (hp : self.pooling_operation = MEAN_POOLING ∨ self.pooling_operation = MAX_POOLING) :
    (msg.get (SPACY_DOCS a) = .pyNone →
      SpacyFeaturizer.set_spacy_features self msg a = .ok msg) ∧
    (∀ tokens, msg.get (SPACY_DOCS a) = .doc tokens →
      ∃ sent, DenseFeaturizer.calculate_cls_vector
          (SpacyFeaturizer.features_for_doc tokens) self.pooling_operation = .ok sent ∧
        SpacyFeaturizer.features_for_doc tokens =
          (tokens.filter (fun t => (!t.text.data.isEmpty) &&
            t.text.data.any (fun c => !c.isWhitespace))).map SpacyToken.vector ∧
        SpacyFeaturizer.set_spacy_features self msg a = .ok
          ⟨msg.text, msg.data, msg.output_properties,
            msg.features ++
              [⟨.ndarray (SpacyFeaturizer.features_for_doc tokens),
                  FEATURE_TYPE_SEQUENCE, a, self.featurizer_alias⟩,
                ⟨.ndarray sent, FEATURE_TYPE_SENTENCE, a, self.featurizer_alias⟩]⟩) := by
  constructor
  · intro h
    simp only [SpacyFeaturizer.set_spacy_features, h]
  · intro tokens hdoc
    obtain ⟨sent, hsent⟩ := cls_vector_ok_of_valid
      (SpacyFeaturizer.features_for_doc tokens) self.pooling_operation hp
    refine ⟨sent, hsent, rfl, ?_⟩
    simp only [SpacyFeaturizer.set_spacy_features, hdoc, hsent, make_sequence_ok,
      make_sentence_ok, bind_ok_eq, Message.add_features]
    simp
    rfl

/-- Witness for C8 at a concrete adapter and message: one blank token is
skipped, the non-blank token's vector forms the single SEQUENCE row, and the
pooled SENTENCE row follows; text, data and prior records are unchanged. -/
theorem spacy_process_appends_two_witness :
    SpacyFeaturizer.set_spacy_features ⟨"mean", "spacy_featurizer"⟩
        ⟨"hi", [("text_spacy_doc", .doc [⟨"hi", [1, 2]⟩, ⟨" ", [5, 6]⟩])], [], []⟩
        "text" =
      .ok ⟨"hi", [("text_spacy_doc", .doc [⟨"hi", [1, 2]⟩, ⟨" ", [5, 6]⟩])], [],
        [⟨.ndarray [[1, 2]], FEATURE_TYPE_SEQUENCE, "text", "spacy_featurizer"⟩,
          ⟨.ndarray [[1, 2]], FEATURE_TYPE_SENTENCE, "text", "spacy_featurizer"⟩]⟩ := by
  obtain ⟨sent, hsent, -, hset⟩ :=
    (spacy_process_appends_two ⟨"mean", "spacy_featurizer"⟩
        ⟨"hi", [("text_spacy_doc", .doc [⟨"hi", [1, 2]⟩, ⟨" ", [5, 6]⟩])], [], []⟩
        "text" (Or.inl rfl)).2
      [⟨"hi", [1, 2]⟩, ⟨" ", [5, 6]⟩] (by decide)
  have hfeat : SpacyFeaturizer.features_for_doc [⟨"hi", [1, 2]⟩, ⟨" ", [5, 6]⟩] =
      [[(1 : ℚ), 2]] := by decide
  have hsent2 : sent = [[(1 : ℚ), 2]] := by
    rw [hfeat] at hsent
    have hsent' : DenseFeaturizer.calculate_cls_vector [[(1 : ℚ), 2]] "mean" =
        Except.ok sent := hsent
    have hval : DenseFeaturizer.calculate_cls_vector [[(1 : ℚ), 2]] "mean" =
        .ok [[(1 : ℚ), 2]] := by
      simp only [DenseFeaturizer.calculate_cls_vector, MEAN_POOLING]
      rw [if_neg (by decide), if_pos trivial]
      norm_num [npMean, rowAny, colReduce]
    rw [hval] at hsent'
    exact (Except.ok.inj hsent').symm
  rw [hset, hfeat, hsent2]
  rfl

/-- Membership of the inserted binding in `dictInsert`. -/
theorem dictInsert_mem_self (k : String) (v : DataVal) (l : List (String × DataVal)) :
    (k, v) ∈ dictInsert k v l := by
  induction l with
  | nil => simp [dictInsert]
  | cons a rest ih =>
      by_cases h : a.1 = k
      · simp [dictInsert, h]
      · simp only [dictInsert, if_neg h]
        exact List.mem_cons_of_mem a ih

/-- Every binding of `dictInsert k v l` is the inserted one or one of `l`. -/
theorem dictInsert_mem (k : String) (v : DataVal) (l : List (String × DataVal)) :
    ∀ kv ∈ dictInsert k v l, kv = (k, v) ∨ kv ∈ l := by
  induction l with
  | nil =>
      intro kv h
      simp [dictInsert] at h
      left
      simp [h]
  | cons a rest ih =>
      intro kv h
      by_cases ha : a.1 = k
      · simp only [dictInsert, if_pos ha] at h
        rcases List.mem_cons.mp h with h2 | h2
        · left
          exact h2
        · right
          exact List.mem_cons_of_mem a h2
      · simp only [dictInsert, if_neg ha] at h
        rcases List.mem_cons.mp h with h2 | h2
        · right
          rw [h2]
          exact List.mem_cons_self a rest
        · rcases ih kv h2 with h3 | h3
          · left
            exact h3
          · right
            exact List.mem_cons_of_mem a h3

/-- C9: the export view is independent of the feature store (tensors are
never exported), always contains the raw text under the text key, contains
no binding whose value is Python's None, under the output restriction
contains only declared keys besides the text key, and every binding other
than the text binding comes from the data mapping. -/
theorem as_dict_export (m : Message) (b : Bool) :
    (∀ fs : List Features,
      Message.as_dict ⟨m.text, m.data, m.output_properties, fs⟩ b = m.as_dict b) ∧
    ((TEXT, DataVal.str m.text) ∈ m.as_dict b) ∧
    (∀ kv ∈ m.as_dict b, kv.2 ≠ DataVal.pyNone) ∧
    (∀ kv ∈ m.as_dict true, kv.1 = TEXT ∨ kv.1 ∈ m.output_properties) ∧
    (∀ kv ∈ m.as_dict b, kv = (TEXT, DataVal.str m.text) ∨ kv ∈ m.data) := by
  refine ⟨fun fs => rfl, ?_, ?_, ?_, ?_⟩
  · exact dictInsert_mem_self TEXT (.str m.text) _
  · intro kv hkv
    rcases dictInsert_mem TEXT (.str m.text) _ kv hkv with h | h
    · rw [h]
      simp
    · have := (List.mem_filter.mp h).2
      simpa using this
  · intro kv hkv
    rcases dictInsert_mem TEXT (.str m.text) _ kv hkv with h | h
    · left
      rw [h]
    · have hmem := (List.mem_filter.mp h).1
      simp only [Message.as_dict] at hmem
      right
      have := (List.mem_filter.mp hmem).2
      simpa using this
  · intro kv hkv
    rcases dictInsert_mem TEXT (.str m.text) _ kv hkv with h | h
    · left
      exact h
    · right
      have hmem := (List.mem_filter.mp h).1
      cases b with
      | false => exact hmem
      | true => exact (List.mem_filter.mp hmem).1

/-- Witness for C9 at a concrete message with an output restriction: the text
binding is present, the declared key survives with its non-None value, and
that value is not None. -/
theorem as_dict_export_witness :
    ((TEXT, DataVal.str "hi") ∈
      (Message.mk "hi" [("intent", .str "greet"), ("junk", .pyNone)]
        ["intent"] []).as_dict true) ∧
    (("intent", DataVal.str "greet") ∈
      (Message.mk "hi" [("intent", .str "greet"), ("junk", .pyNone)]
        ["intent"] []).as_dict true) ∧
    ("intent", DataVal.str "greet").2 ≠ DataVal.pyNone := by
  refine ⟨(as_dict_export (Message.mk "hi" [("intent", .str "greet"),
    ("junk", .pyNone)] ["intent"] []) true).2.1, ?_, ?_⟩
  · decide
  · exact (as_dict_export (Message.mk "hi" [("intent", .str "greet"),
      ("junk", .pyNone)] ["intent"] []) true).2.2.1
      ("intent", DataVal.str "greet") (by decide)

/-- C10: construction validates only the granularity type tag — it succeeds
for a tag in the valid set and fails with the invalid-feature-type error
otherwise, independently of the tensor value, which is never inspected;
is_dense is the negation of is_sparse, is_sparse holds exactly for a scipy
sparse matrix, and every non-sparse value (arrays and arbitrary objects
alike) is classified dense. -/
theorem features_construction_and_sparsity (v : FeatVal) (ty a o : String) :
    (ty ∈ VALID_FEATURE_TYPES → Features.make v ty a o = .ok ⟨v, ty, a, o⟩) ∧
    (ty ∉ VALID_FEATURE_TYPES → Features.make v ty a o = .error (.invalidFeatureType ty)) ∧
    (∀ f : Features, f.is_dense = ! f.is_sparse) ∧
    (∀ f : Features, f.is_sparse = true ↔ ∃ mat, f.features = .spmatrix mat) ∧
    (∀ f : Features, (∀ mat, f.features ≠ .spmatrix mat) → f.is_dense = true) := by
  refine ⟨?_, ?_, fun f => rfl, ?_, ?_⟩
  · intro h
    simp [Features.make, Features.validate_type, h]
  · intro h
    simp [Features.make, Features.validate_type, h]
  · intro f
    constructor
    · intro h
      cases hf : f.features with
      | ndarray mat => simp [Features.is_sparse, hf] at h
      | spmatrix mat => exact ⟨mat, rfl⟩
      | pyobj t => simp [Features.is_sparse, hf] at h
    · intro ⟨mat, hmat⟩
      simp [Features.is_sparse, hmat]
  · intro f h
    cases hf : f.features with
    | ndarray mat => simp [Features.is_dense, Features.is_sparse, hf]
    | spmatrix mat => exact absurd hf (h mat)
    | pyobj t => simp [Features.is_dense, Features.is_sparse, hf]

/-- Witness for C10 at concrete values: construction succeeds for a valid tag
on a non-array object, fails for an invalid tag independent of the tensor,
and the non-array object is classified dense. -/
theorem features_construction_and_sparsity_witness :
    Features.make (.pyobj "o") "sequence" "text" "a" =
      .ok ⟨.pyobj "o", "sequence", "text", "a"⟩ ∧
    Features.make (.pyobj "o") "token" "text" "a" =
      .error (.invalidFeatureType "token") ∧
    (Features.mk (.pyobj "o") "sequence" "text" "a").is_dense = true := by
  refine ⟨?_, ?_, ?_⟩
  · exact (features_construction_and_sparsity (.pyobj "o") "sequence" "text" "a").1
      (by decide)
  · exact (features_construction_and_sparsity (.pyobj "o") "token" "text" "a").2.1
      (by decide)
  · exact (features_construction_and_sparsity (.pyobj "o") "sequence" "text" "a").2.2.2.2
      (Features.mk (.pyobj "o") "sequence" "text" "a")
      (fun mat h => FeatVal.noConfusion h)

end Rasa
